import Mathlib

/-!
Shallow embedding of the benchmark/validation harness in
`custom_model_runner/datarobot_drum/drum/perf_testing.py`.

Datasets are modelled as lists of rows (`List α`); integer truncation of
Python's `int(x / y)` on non-negative values is modelled as `Nat` floor
division (the concrete inputs used in the claims were checked to agree
with Python's float evaluation).
-/

namespace PerfTesting

/-- Embedding of `_get_samples_df(df, samples)` (perf_testing.py lines 45-54):
if the frame has at least `samples` rows take the head, otherwise
concatenate `samples / nrows` full copies and append the first
`samples % nrows` rows. -/
def get_samples_df {α : Type} (df : List α) (samples : Nat) : List α :=
  if samples ≤ df.length then
    df.take samples
  else
    let multiplier := samples / df.length
    let remainder := samples % df.length
    (List.replicate multiplier df).flatten ++ df.take remainder

/-- Embedding of `_get_approximate_samples_in_csv_size(file, target_csv_size)`
(lines 57-61): `int(rows * (target / file_size)) + 1`, with the float
product modelled as exact rational floor. -/
def get_approximate_samples_in_csv_size (rows file_size target_csv_size : Nat) : Nat :=
  rows * target_csv_size / file_size + 1

/-- Embedding of the namedtuple `PerfTestCase` (line 88). -/
structure PerfTestCase where
  name : String
  samples : Nat
  iterations : Nat
  deriving Repr, DecidableEq

/-- Embedding of the local `_get_size_and_units(size)` (lines 266-270),
rendered directly to the label string used at lines 280 and 294. -/
def size_and_units_label (size : Nat) : String :=
  if size < 1024 then
    toString size ++ " bytes"
  else
    toString (size / 1024) ++ " KB"

/-- Embedding of `CMRunTests._prepare_test_cases` (lines 260-296).
Both the input frame (`input_df`) and the on-disk byte size of its CSV
file (`file_size`) are parameters; `samples_opt` and `iterations_opt` are
`options.samples` and `options.iterations`.  Returns the pair
`(df_for_test, test_cases_to_run)`. -/
def prepare_test_cases {α : Type} (input_df : List α) (file_size : Nat)
    (samples_opt : Option Nat) (iterations_opt : Option Nat) :
    List α × List PerfTestCase :=
  let sample_size := file_size / input_df.length
  if iterations_opt = none ∧ samples_opt = none then
    let samples_in_50mb :=
      get_approximate_samples_in_csv_size input_df.length file_size (50 * 1048576)
    let df_50mb := get_samples_df input_df samples_in_50mb
    (df_50mb,
      [ ⟨size_and_units_label sample_size, 1, 100⟩,
        ⟨"0.1MB", samples_in_50mb / 500, 50⟩,
        ⟨"10MB", samples_in_50mb / 5, 5⟩,
        ⟨"50MB", samples_in_50mb, 1⟩ ])
  else
    let iters := iterations_opt.getD 1
    let samples := samples_opt.getD input_df.length
    let samples_size := samples * sample_size
    (input_df, [⟨size_and_units_label samples_size, samples, iters⟩])

/-- Mutable record `TestCaseResults` (lines 91-99).  `completed` counts the
iterations whose `end` mark was recorded by the stats collector, i.e. the
per-iteration timing intervals accumulated so far. -/
structure TcResult where
  name : String
  iterations : Nat
  samples : Nat
  prediction_ok : Bool
  prediction_error : Option String
  server_stats : Option String
  completed : Nat
  deriving Repr, DecidableEq

/-- Outcome of one `requests.post` to `/predict/` as seen by the runner loop
(lines 404-433): the SIGALRM timeout interrupting the blocking call, a
non-ok HTTP response with its error text, or an ok response carrying some
number of predictions. -/
inductive IterOutcome where
  | timeout
  | httpError (errText : String)
  | ok (numPredictions : Nat)
  deriving Repr, DecidableEq

/-- How `_run_test_case` left the loop: fell off the end normally, was
unwound by `DrumPerfTestTimeout`, by the shape-mismatch `assert`
(line 431), or returned early on a non-ok response (line 421). -/
inductive CaseEnd where
  | normal
  | timedOut
  | assertFailed
  | httpFailed
  deriving Repr, DecidableEq

/-- The iteration loop of `_run_test_case` (lines 404-434).  `rowsSent` is
`test_df.shape[0]`; `outcome i` is the environment's response to the
request of iteration `i`.  On `response.ok` the code sets
`prediction_ok = True` before the prediction-count check; a mismatch
raises out of the loop (the `assert` at line 431) leaving that flag set;
a non-ok response records the error text and returns; a timeout unwinds
with the result as it stands. -/
def runIters (rowsSent : Nat) (outcome : Nat → IterOutcome) :
    Nat → Nat → TcResult → TcResult × CaseEnd
  | 0, _, r => (r, CaseEnd.normal)
  | k + 1, i, r =>
    match outcome i with
    | IterOutcome.timeout => (r, CaseEnd.timedOut)
    | IterOutcome.httpError e =>
      ({ r with prediction_ok := false, prediction_error := some e }, CaseEnd.httpFailed)
    | IterOutcome.ok n =>
      let r' := { r with prediction_ok := true }
      if n ≠ rowsSent then
        (r', CaseEnd.assertFailed)
      else
        runIters rowsSent outcome k (i + 1) { r' with completed := r'.completed + 1 }

/-- Embedding of `CMRunTests._run_test_case(tc, results)` (lines 384-440):
build the result record and append it to `results` up front (line 397),
sample the working frame down to `tc.samples`, run the iteration loop,
and only when the loop finishes normally perform the single
`GET /stats/` (line 437), attaching the body when `statsResp` is
available.  Timeout and assertion exits skip the stats call, as does the
early `return` of the non-ok branch. -/
def run_test_case {α : Type} (tc : PerfTestCase) (df_for_test : List α)
    (outcome : Nat → IterOutcome) (statsResp : Option String) : TcResult :=
  let test_df := get_samples_df df_for_test tc.samples
  let init : TcResult :=
    { name := tc.name, iterations := tc.iterations, samples := tc.samples,
      prediction_ok := false, prediction_error := none, server_stats := none,
      completed := 0 }
  let (r, e) := runIters test_df.length outcome tc.iterations 0 init
  match e with
  | CaseEnd.normal =>
    match statsResp with
    | some s => { r with server_stats := some s }
    | none => r
  | _ => r

/-- Embedding of `CMRunTests._run_all_test_cases` (lines 442-453): every
test case is run in planning order under a per-case alarm; both
`DrumPerfTestTimeout` and any other `Exception` are caught at the loop
body, so the result appended at the start of `_run_test_case` survives
and the loop always moves on to the next case.  `envOutcome j` and
`envStats j` are the environment seen by case `j`. -/
def run_all_test_cases {α : Type} (df_for_test : List α)
    (cases : List PerfTestCase) (envOutcome : Nat → Nat → IterOutcome)
    (envStats : Nat → Option String) : List TcResult :=
  cases.enum.map (fun p => run_test_case p.2 df_for_test (envOutcome p.1) (envStats p.1))

/-- Observable end state of `CMRunTests.validation_test` (lines 507-605).
`failed` is the dict `results` keyed by column (index, name, retcode);
`removedFiles` are the column indices whose temp dataset file was removed
by an individual `os.remove`; `dirRemoved` records the `shutil.rmtree` of
the whole temp directory; `reportedFiles` are the column indices whose
file path appears in the failure table. -/
structure ValidationOutcome where
  failed : List (Nat × String × Nat)
  passed : Bool
  removedFiles : List Nat
  dirRemoved : Bool
  reportedFiles : List Nat
  deriving Repr, DecidableEq

/-- Embedding of `CMRunTests.validation_test` (lines 507-605) over the list
of columns paired with the exit code of the scoring subprocess run on the
variant dataset that nulls that column.  The loop (lines 528-542) stores
only non-zero exit codes in `results`; when `results` is empty the check
passes and the whole temp directory is removed (line 562); otherwise the
loop at lines 568-570 removes the files of entries of `results` with a
zero exit code (necessarily none) and the failing entries' paths are
listed in the report (lines 591-593). -/
def validation_test (cols : List (String × Nat)) : ValidationOutcome :=
  let failed := cols.enum.filter (fun p => p.2.2 ≠ 0)
  if failed.isEmpty then
    { failed := failed, passed := true, removedFiles := [],
      dirRemoved := true, reportedFiles := [] }
  else
    { failed := failed, passed := false,
      removedFiles := (failed.filter (fun q => q.2.2 = 0)).map (fun q => q.1),
      dirRemoved := false,
      reportedFiles := failed.map (fun q => q.1) }

/-- Whether the temp dataset file built for column `i` still exists after
`validation_test` finishes. -/
def fileRetained (v : ValidationOutcome) (i : Nat) : Bool :=
  !v.dirRemoved && !(v.removedFiles.contains i)

/-- Embedding of the subset-size computation of
`CMRunTests.check_prediction_side_effects` (lines 647 and 661):
`min(1000, max(int(len(df) * 0.1), 10))`, with `int(len*0.1)` modelled as
floor division by 10. -/
def side_effects_samplesize (n : Nat) : Nat :=
  min 1000 (max (n / 10) 10)

/-- The fixed `random_state` passed to `df.sample` at lines 648 and 662. -/
def side_effects_seed : Nat := 42

/-- Modelled from the spec's words for comparison with the code's
`side_effects_samplesize`: the claim describes the subset size as
`min(1000, 10% of n)`, with no lower bound of 10. -/
def side_effects_samplesize_claim (n : Nat) : Nat :=
  min 1000 (n / 10)

theorem length_flatten_replicate {α : Type} (q : Nat) (df : List α) :
    ((List.replicate q df).flatten).length = q * df.length := by
  induction q with
  | zero => simp
  | succ k ih =>
    rw [List.replicate_succ, List.flatten_cons, List.length_append, ih, Nat.succ_mul]
    omega

theorem getElem?_flatten_replicate {α : Type} (df : List α) (q i : Nat)
    (h : i < q * df.length) :
    ((List.replicate q df).flatten)[i]? = df[i % df.length]? := by
  induction q generalizing i with
  | zero => simp at h
  | succ k ih =>
    rw [List.replicate_succ, List.flatten_cons]
    by_cases hi : i < df.length
    · rw [List.getElem?_append_left hi, Nat.mod_eq_of_lt hi]
    · push_neg at hi
      rw [List.getElem?_append_right hi, Nat.mod_eq_sub_mod hi]
      rw [Nat.succ_mul] at h
      exact ih (i - df.length) (by omega)

theorem get_samples_df_length {α : Type} (df : List α) (n : Nat) (h : df ≠ []) :
    (get_samples_df df n).length = n := by
  have hpos : 0 < df.length := List.length_pos.mpr h
  unfold get_samples_df
  split
  · next hle => rw [List.length_take]; omega
  · next hgt =>
    push_neg at hgt
    rw [List.length_append, length_flatten_replicate, List.length_take]
    have hdm := Nat.div_add_mod n df.length
    have hmod : n % df.length < df.length := Nat.mod_lt _ hpos
    have : df.length * (n / df.length) = n / df.length * df.length := Nat.mul_comm _ _
    omega

theorem get_samples_df_getElem? {α : Type} (df : List α) (n i : Nat)
    (hne : df ≠ []) (hi : i < n) :
    (get_samples_df df n)[i]? = df[i % df.length]? := by
  have hpos : 0 < df.length := List.length_pos.mpr hne
  unfold get_samples_df
  split
  · next hle =>
    rw [List.getElem?_take_of_lt hi, Nat.mod_eq_of_lt (Nat.lt_of_lt_of_le hi hle)]
  · next hgt =>
    push_neg at hgt
    have hflat : ((List.replicate (n / df.length) df).flatten).length
        = n / df.length * df.length := length_flatten_replicate _ _
    by_cases hq : i < n / df.length * df.length
    · rw [List.getElem?_append_left (by rw [hflat]; exact hq)]
      exact getElem?_flatten_replicate df _ i hq
    · push_neg at hq
      rw [List.getElem?_append_right (by rw [hflat]; exact hq)]
      rw [hflat]
      have hdm := Nat.div_add_mod n df.length
      have hmc : df.length * (n / df.length) = n / df.length * df.length :=
        Nat.mul_comm _ _
      have hj : i - n / df.length * df.length < n % df.length := by omega
      rw [List.getElem?_take_of_lt hj]
      have hmod : n % df.length < df.length := Nat.mod_lt _ hpos
      have hieq : i = n / df.length * df.length + (i - n / df.length * df.length) := by
        omega
      conv_rhs => rw [hieq, ← hmc]
      rw [Nat.mul_add_mod, Nat.mod_eq_of_lt (by omega), hmc]

theorem get_samples_df_head {α : Type} (df : List α) (n : Nat) (h : n ≤ df.length) :
    get_samples_df df n = df.take n := by
  unfold get_samples_df
  rw [if_pos h]

/-- Claim C2: for every dataset with at least one row and every n, `sample`
returns exactly n rows whose row i equals source row (i mod row_count);
for n at most the row count it is exactly the first n rows, and n = 0
yields the empty dataset. -/
theorem sample_exact_rows {α : Type} (df : List α) (n : Nat) (h : df ≠ []) :
    (get_samples_df df n).length = n ∧
    (∀ i, i < n → (get_samples_df df n)[i]? = df[i % df.length]?) ∧
    (n ≤ df.length → get_samples_df df n = df.take n) ∧
    get_samples_df df 0 = [] := by
  refine ⟨get_samples_df_length df n h,
    fun i hi => get_samples_df_getElem? df n i h hi,
    get_samples_df_head df n, ?_⟩
  rw [get_samples_df_head df 0 (Nat.zero_le _), List.take_zero]

/-- Concrete instance of claim C2 at the spec's own example: a 3-row
dataset sampled to n = 7. -/
theorem sample_exact_rows_witness :
    ([0, 1, 2] : List Nat) ≠ [] ∧
    ((get_samples_df ([0, 1, 2] : List Nat) 7).length = 7 ∧
      (∀ i, i < 7 →
        (get_samples_df ([0, 1, 2] : List Nat) 7)[i]?
          = ([0, 1, 2] : List Nat)[i % ([0, 1, 2] : List Nat).length]?) ∧
      (7 ≤ ([0, 1, 2] : List Nat).length →
        get_samples_df ([0, 1, 2] : List Nat) 7 = ([0, 1, 2] : List Nat).take 7) ∧
      get_samples_df ([0, 1, 2] : List Nat) 0 = []) :=
  ⟨by decide, sample_exact_rows [0, 1, 2] 7 (by decide)⟩

/-- Claim C9: with an explicit samples or iterations override the planner
produces exactly one test case, samples defaulting to the full row count
and iterations defaulting to 1, and the working sample is the entire
input dataset. -/
theorem plan_override_mode {α : Type} (df : List α) (fs : Nat)
    (samples_opt iterations_opt : Option Nat)
    (h : samples_opt ≠ none ∨ iterations_opt ≠ none) :
    (prepare_test_cases df fs samples_opt iterations_opt).1 = df ∧
    ((prepare_test_cases df fs samples_opt iterations_opt).2.map
        (fun c => (c.samples, c.iterations)))
      = [(samples_opt.getD df.length, iterations_opt.getD 1)] := by
  have hcond : ¬ (iterations_opt = none ∧ samples_opt = none) := by tauto
  unfold prepare_test_cases
  rw [if_neg hcond]
  simp

/-- Concrete instance of claim C9: explicit samples of 5, no explicit
iterations, on a 1-row dataset. -/
theorem plan_override_mode_witness :
    ((some 5 : Option Nat) ≠ none ∨ (none : Option Nat) ≠ none) ∧
    ((prepare_test_cases [()] 10 (some 5) none).1 = [()] ∧
      ((prepare_test_cases [()] 10 (some 5) none).2.map
          (fun c => (c.samples, c.iterations)))
        = [((some 5 : Option Nat).getD ([()] : List Unit).length,
            (none : Option Nat).getD 1)]) :=
  ⟨Or.inl (by decide), plan_override_mode [()] 10 (some 5) none (Or.inl (by decide))⟩

/-- Counterexample to claim C3 as stated: for a 1-row dataset whose CSV
file is 204800 bytes the 50MB row estimate is 52428800 / 204800 + 1 = 257,
so the planner's sample ladder is [1, 0, 51, 257] — the "0.1MB" case
plans 257 / 500 = 0 samples, fewer than the first case's 1, so the
sample counts are not non-decreasing. -/
theorem plan_default_ladder_counterexample :
    ((prepare_test_cases [()] 204800 none none).2.map PerfTestCase.samples)
      = [1, 0, 51, 257] ∧
    ¬ List.Chain' (· ≤ ·)
      ((prepare_test_cases [()] 204800 none none).2.map PerfTestCase.samples) := by
  have hmap : ((prepare_test_cases [()] 204800 none none).2.map PerfTestCase.samples)
      = [1, 0, 51, 257] := by decide
  refine ⟨hmap, ?_⟩
  rw [hmap]
  intro hchain
  have h10 := (List.chain'_cons.mp hchain).1
  omega

/-- Claim C3 as amended: in default mode the planner always produces
exactly 4 test cases with iteration counts 100, 50, 5, 1 in that order,
and the sample counts 1, e/500, e/5, e are non-decreasing whenever the
50MB row estimate e is at least 500 (the counterexample shows the first
step can decrease when e < 500). -/
theorem plan_default_ladder {α : Type} (df : List α) (fs : Nat)
    (h : 500 ≤ get_approximate_samples_in_csv_size df.length fs (50 * 1048576)) :
    (prepare_test_cases df fs none none).2.length = 4 ∧
    (prepare_test_cases df fs none none).2.map PerfTestCase.iterations
      = [100, 50, 5, 1] ∧
    List.Chain' (· ≤ ·)
      ((prepare_test_cases df fs none none).2.map PerfTestCase.samples) := by
  unfold prepare_test_cases
  rw [if_pos ⟨rfl, rfl⟩]
  refine ⟨rfl, rfl, ?_⟩
  simp only [List.map_cons, List.map_nil, List.chain'_cons, List.chain'_singleton,
    and_true]
  refine ⟨?_, ?_, Nat.div_le_self _ _⟩
  · have h500 : (0 : Nat) < 500 := by omega
    rw [Nat.le_div_iff_mul_le h500]
    omega
  · exact Nat.div_le_div_left (by omega) (by omega)

/-- Concrete instance of the amended claim C3: a 2-row dataset in a
1000-byte file has a 50MB row estimate of 104858, well above 500. -/
theorem plan_default_ladder_witness :
    500 ≤ get_approximate_samples_in_csv_size ([(), ()] : List Unit).length 1000
        (50 * 1048576) ∧
    ((prepare_test_cases ([(), ()] : List Unit) 1000 none none).2.length = 4 ∧
      (prepare_test_cases ([(), ()] : List Unit) 1000 none none).2.map
          PerfTestCase.iterations = [100, 50, 5, 1] ∧
      List.Chain' (· ≤ ·)
        ((prepare_test_cases ([(), ()] : List Unit) 1000 none none).2.map
          PerfTestCase.samples)) :=
  ⟨by decide, plan_default_ladder [(), ()] 1000 (by decide)⟩

/-- Claim C4: the 50MB row estimate is floor(rows * 52428800 / file_size) + 1
(that formula is the definition of `get_approximate_samples_in_csv_size`);
for 1,000,000 rows in a 100,000,000-byte file the estimate is 524,289 and
the planner's "10MB" case (third entry) has 5 iterations and
524289 / 5 = 104,857 samples, within one row of the spec's quoted
approximation of 104,858. -/
theorem fifty_mb_estimate_example {α : Type} (df : List α) (fs : Nat)
    (hdf : df.length = 1000000) (hfs : fs = 100000000) :
    get_approximate_samples_in_csv_size df.length fs (50 * 1048576) = 524289 ∧
    ((prepare_test_cases df fs none none).2.map (fun c => (c.samples, c.iterations)))
      = [(1, 100), (1048, 50), (104857, 5), (524289, 1)] ∧
    (104858 - 104857 : Nat) ≤ 1 := by
  subst hfs
  unfold prepare_test_cases get_approximate_samples_in_csv_size
  rw [if_pos ⟨rfl, rfl⟩, hdf]
  norm_num

/-- Concrete instance of claim C4: a literal 1,000,000-row dataset. -/
theorem fifty_mb_estimate_example_witness :
    (List.replicate 1000000 ()).length = 1000000 ∧
    (100000000 : Nat) = 100000000 ∧
    (get_approximate_samples_in_csv_size (List.replicate 1000000 ()).length 100000000
        (50 * 1048576) = 524289 ∧
      ((prepare_test_cases (List.replicate 1000000 ()) 100000000 none none).2.map
          (fun c => (c.samples, c.iterations)))
        = [(1, 100), (1048, 50), (104857, 5), (524289, 1)] ∧
      (104858 - 104857 : Nat) ≤ 1) :=
  ⟨List.length_replicate 1000000 (), rfl,
    fifty_mb_estimate_example (List.replicate 1000000 ()) 100000000
      (List.length_replicate 1000000 ()) rfl⟩

/-- Claim C10: in default mode the 50MB row estimate is at least 1, the
working sample has exactly that many rows, and every planned case's
sample count is at most the working sample's row count, so each per-case
sampling call is pure head-truncation. -/
theorem plan_default_head_truncation {α : Type} (df : List α) (fs : Nat)
    (hdf : df ≠ []) (_hfs : 0 < fs) :
    1 ≤ get_approximate_samples_in_csv_size df.length fs (50 * 1048576) ∧
    (prepare_test_cases df fs none none).1.length
      = get_approximate_samples_in_csv_size df.length fs (50 * 1048576) ∧
    ∀ c ∈ (prepare_test_cases df fs none none).2,
      c.samples ≤ (prepare_test_cases df fs none none).1.length ∧
      get_samples_df (prepare_test_cases df fs none none).1 c.samples
        = (prepare_test_cases df fs none none).1.take c.samples := by
  have h1 : 1 ≤ get_approximate_samples_in_csv_size df.length fs (50 * 1048576) := by
    unfold get_approximate_samples_in_csv_size
    exact Nat.le_add_left 1 _
  have hws : (prepare_test_cases df fs none none).1
      = get_samples_df df
          (get_approximate_samples_in_csv_size df.length fs (50 * 1048576)) := by
    unfold prepare_test_cases
    rw [if_pos ⟨rfl, rfl⟩]
  have hlen : (prepare_test_cases df fs none none).1.length
      = get_approximate_samples_in_csv_size df.length fs (50 * 1048576) := by
    rw [hws, get_samples_df_length _ _ hdf]
  refine ⟨h1, hlen, ?_⟩
  intro c hc
  have hsle : c.samples
      ≤ get_approximate_samples_in_csv_size df.length fs (50 * 1048576) := by
    revert hc
    unfold prepare_test_cases
    rw [if_pos ⟨rfl, rfl⟩]
    intro hc
    simp only [List.mem_cons, List.not_mem_nil, or_false] at hc
    rcases hc with rfl | rfl | rfl | rfl
    · exact h1
    · exact Nat.div_le_self _ _
    · exact Nat.div_le_self _ _
    · exact Nat.le_refl _
  rw [hlen]
  exact ⟨hsle, get_samples_df_head _ _ (by rw [hlen]; exact hsle)⟩

/-- Concrete instance of claim C10: a 2-row dataset in a 1000-byte file. -/
theorem plan_default_head_truncation_witness :
    ([(), ()] : List Unit) ≠ [] ∧
    (0 : Nat) < 1000 ∧
    (1 ≤ get_approximate_samples_in_csv_size ([(), ()] : List Unit).length 1000
        (50 * 1048576) ∧
      (prepare_test_cases ([(), ()] : List Unit) 1000 none none).1.length
        = get_approximate_samples_in_csv_size ([(), ()] : List Unit).length 1000
            (50 * 1048576) ∧
      ∀ c ∈ (prepare_test_cases ([(), ()] : List Unit) 1000 none none).2,
        c.samples ≤ (prepare_test_cases ([(), ()] : List Unit) 1000 none none).1.length ∧
        get_samples_df (prepare_test_cases ([(), ()] : List Unit) 1000 none none).1
            c.samples
          = (prepare_test_cases ([(), ()] : List Unit) 1000 none none).1.take
              c.samples) :=
  ⟨by decide, by decide, plan_default_head_truncation [(), ()] 1000 (by decide) (by decide)⟩

/-- Counterexample to claim C8 as stated: for a 50-row dataset the code
draws min(1000, max(50/10, 10)) = 10 rows, while the claim's formula
min(1000, 10 percent of n) gives 5 — the code keeps a lower bound of 10
that the claim omits. -/
theorem side_effects_samplesize_counterexample :
    side_effects_samplesize 50 = 10 ∧
    side_effects_samplesize_claim 50 = 5 ∧
    side_effects_samplesize 50 ≠ side_effects_samplesize_claim 50 := by
  refine ⟨rfl, rfl, ?_⟩
  decide

/-- Claim C8 as amended: the determinism check's subset size equals the
claim's formula min(1000, n/10) with an additional lower bound of 10
that the claim omits; it never exceeds 1000, and the subset is drawn
with the fixed seed 42, so two runs on the same input draw the same
rows. -/
theorem side_effects_samplesize_spec (n : Nat) :
    side_effects_samplesize n = max (side_effects_samplesize_claim n) 10 ∧
    side_effects_samplesize n ≤ 1000 ∧
    side_effects_seed = 42 := by
  refine ⟨?_, Nat.min_le_left _ _, rfl⟩
  unfold side_effects_samplesize side_effects_samplesize_claim
  omega

/-- Claim C1 (code divergence): the run loop is total and yields exactly one
result per planned case in planning order — the result record is appended
before any fallible work and both `DrumPerfTestTimeout` and generic
exceptions are caught at the loop body — but the success-flag clause of
the claim fails: a case whose first iteration succeeds and whose second
iteration times out ends with `prediction_ok = true`, not false (the flag
is only ever cleared by a non-ok response, line 417). -/
theorem runner_one_result_per_case_flag_divergence :
    (∀ (df : List Unit) (cases : List PerfTestCase)
        (eo : Nat → Nat → IterOutcome) (es : Nat → Option String),
      (run_all_test_cases df cases eo es).length = cases.length) ∧
    ((run_all_test_cases [(), ()] [⟨"case", 2, 2⟩]
        (fun _ i => if i = 0 then IterOutcome.ok 2 else IterOutcome.timeout)
        (fun _ => some "stats")).map
        (fun r => (r.prediction_ok, r.completed, r.server_stats))
      = [(true, 1, none)]) := by
  constructor
  · intro df cases eo es
    unfold run_all_test_cases
    rw [List.length_map, List.enum_length]
  · decide

/-- Claim C5 (code divergence): a successful request whose prediction count
differs from the rows sent stops the case (the later iterations never
run: no error text is ever recorded), but the result keeps
`prediction_ok = true` — the flag set at line 415 before the count check
is never cleared by the assertion at line 431, so the case is not
recorded as failed. -/
theorem shape_mismatch_flag_divergence :
    run_test_case ⟨"case", 3, 5⟩ [(), (), ()]
        (fun i => if i = 0 then IterOutcome.ok 2 else IterOutcome.httpError "later")
        (some "stats")
      = ⟨"case", 5, 3, true, none, none, 0⟩ := by
  decide

/-- Claim C6 (code divergence): when an iteration fails with a non-ok
response the early return at line 421 skips the stats call entirely, so
no stats fetch is attempted even though the server had statistics
available; when the loop does complete, the availability of the stats
response changes only the `server_stats` field, never the success flag
or the recorded timing. -/
theorem stats_fetch_skipped_on_failure :
    (run_test_case ⟨"case", 1, 3⟩ [()]
        (fun _ => IterOutcome.httpError "boom") (some "available")
      = ⟨"case", 3, 1, false, some "boom", none, 0⟩) ∧
    (∀ s : Option String,
      (run_test_case ⟨"case", 1, 1⟩ [()] (fun _ => IterOutcome.ok 1) s).prediction_ok
          = true ∧
      (run_test_case ⟨"case", 1, 1⟩ [()] (fun _ => IterOutcome.ok 1) s).completed = 1 ∧
      (run_test_case ⟨"case", 1, 1⟩ [()] (fun _ => IterOutcome.ok 1) s).server_stats
          = s) := by
  refine ⟨by decide, fun s => ?_⟩
  cases s <;> exact ⟨rfl, rfl, rfl⟩

theorem forall_mem_enumFrom_snd {α : Type} {P : α → Prop} (l : List α) :
    ∀ k, (∀ p ∈ List.enumFrom k l, P p.2) ↔ ∀ a ∈ l, P a := by
  induction l with
  | nil => intro k; simp
  | cons c cs ih =>
    intro k
    simp only [List.enumFrom_cons, List.mem_cons, forall_eq_or_imp]
    rw [ih (k + 1)]

/-- Claim C7 (code divergence): when some other column fails, a column
whose scoring subprocess exited with code 0 keeps its temporary dataset
file — the cleanup loop at lines 568-570 iterates over the `results`
dict, which only ever holds non-zero exit codes (line 541), so its
zero-exit-code branch is dead and no per-column file is ever removed;
failing columns are retained and reported, and the check passes exactly
when every column's subprocess exits with code 0. -/
theorem validation_null_imputation_divergence :
    (validation_test [("a", 0), ("b", 1)]
      = ⟨[(1, ("b", 1))], false, [], false, [1]⟩) ∧
    fileRetained (validation_test [("a", 0), ("b", 1)]) 0 = true ∧
    (∀ cols : List (String × Nat),
      (validation_test cols).passed = true ↔ ∀ q ∈ cols, q.2 = 0) := by
  refine ⟨by decide, by decide, fun cols => ?_⟩
  have key : (cols.enum.filter (fun p => decide (p.2.2 ≠ 0))) = []
      ↔ ∀ q ∈ cols, q.2 = 0 := by
    rw [List.filter_eq_nil_iff]
    simp only [decide_eq_true_eq, not_not]
    rw [show cols.enum = List.enumFrom 0 cols from rfl]
    exact @forall_mem_enumFrom_snd _ (fun q => q.2 = 0) cols 0
  unfold validation_test
  by_cases h : (cols.enum.filter (fun p => decide (p.2.2 ≠ 0))).isEmpty = true
  · rw [if_pos h]
    simpa using key.mp (List.isEmpty_iff.mp h)
  · rw [if_neg h]
    simp only [Bool.false_eq_true, false_iff]
    intro hall
    exact h (List.isEmpty_iff.mpr (key.mpr hall))

end PerfTesting
